import Mathlib

/-
Shallow embedding of the httpbin testing-utility server's response-shaping and
scenario-simulation layer, together with proofs of the specification claims
about it.  Handlers are modelled as pure functions of their request parameters;
the process-wide random and clock providers become explicit arguments; Python
exceptions (ValueError, ZeroDivisionError) propagating out of a handler become
`Except.error`.  Machine floats are modelled as rationals.
-/

namespace Httpbin

/-! ## Python primitives: `int(...)`, `float(...)`, `range(...)`, query args -/

/-- Characters treated as whitespace by Python's `str.strip()` and by the
whitespace-stripping of `int(...)` / `float(...)`. -/
def isPySpace (c : Char) : Bool :=
  c.toNat = 32 || c.toNat = 9 || c.toNat = 10 || c.toNat = 13 ||
    c.toNat = 11 || c.toNat = 12

/-- Python `str.strip()`: drop whitespace from both ends of the character list. -/
def stripChars (l : List Char) : List Char :=
  ((l.dropWhile isPySpace).reverse.dropWhile isPySpace).reverse

/-- Value of a list of decimal digit characters. -/
def digitsVal (l : List Char) : ℕ :=
  l.foldl (fun acc c => 10 * acc + (c.toNat - 48)) 0

/-- Python `int(...)` on an already-stripped character list: an optional sign
followed by one or more decimal digits; anything else raises `ValueError`
(modelled as `none`).  Underscore digit grouping is not modelled. -/
def pyIntCore (l : List Char) : Option ℤ :=
  match l with
  | '-' :: rest =>
      if !rest.isEmpty && rest.all Char.isDigit then
        some (-(digitsVal rest : ℤ))
      else none
  | '+' :: rest =>
      if !rest.isEmpty && rest.all Char.isDigit then
        some (digitsVal rest : ℤ)
      else none
  | _ =>
      if !l.isEmpty && l.all Char.isDigit then
        some (digitsVal l : ℤ)
      else none

/-- Python `int(...)` on a string. -/
def pyInt (s : String) : Option ℤ :=
  pyIntCore (stripChars s.toList)

/-- Unsigned decimal part of Python `float(...)`: digits, an optional dot and
further digits, at least one digit overall.  Exponent and inf/nan forms are
not modelled. -/
def pyFloatUnsigned (m : List Char) : Option ℚ :=
  let ip := m.takeWhile Char.isDigit
  let rest := m.dropWhile Char.isDigit
  match rest with
  | [] => if ip.isEmpty then none else some (digitsVal ip : ℚ)
  | '.' :: fp =>
      if fp.all Char.isDigit && !(ip.isEmpty && fp.isEmpty) then
        some ((digitsVal ip : ℚ) + (digitsVal fp : ℚ) / (10 : ℚ) ^ fp.length)
      else none
  | _ => none

/-- Python `float(...)` on a string, modelled over ℚ. -/
def pyFloat (s : String) : Option ℚ :=
  match stripChars s.toList with
  | '-' :: rest => (pyFloatUnsigned rest).map (fun q => -q)
  | '+' :: rest => pyFloatUnsigned rest
  | l => pyFloatUnsigned l

/-- Python `range(n)` over an `int` bound: `[0, 1, ..., n-1]`, empty for `n ≤ 0`. -/
def pyRange (n : ℤ) : List ℤ :=
  (List.range n.toNat).map (fun i : ℕ => (i : ℤ))

/-- Models `int(request.args.get(name, default))`: an absent parameter yields the
integer default; a present value that fails to parse raises `ValueError`,
which propagates out of the handler (`Except.error`). -/
def intArg (arg : Option String) (dflt : ℤ) : Except String ℤ :=
  match arg with
  | none => .ok dflt
  | some s =>
    match pyInt s with
    | some v => .ok v
    | none => .error "ValueError"

/-- Models `float(request.args.get(name, default))`, same fault policy as `intArg`. -/
def floatArg (arg : Option String) (dflt : ℚ) : Except String ℚ :=
  match arg with
  | none => .ok dflt
  | some s =>
    match pyFloat s with
    | some v => .ok v
    | none => .error "ValueError"

instance {ε α : Type} [DecidableEq ε] [DecidableEq α] : DecidableEq (Except ε α) :=
  fun x y =>
    match x, y with
    | .error a, .error b =>
      if h : a = b then .isTrue (by simp [h]) else .isFalse (by simp [h])
    | .error _, .ok _ => .isFalse (by simp)
    | .ok _, .error _ => .isFalse (by simp)
    | .ok a, .ok b =>
      if h : a = b then .isTrue (by simp [h]) else .isFalse (by simp [h])

/-! ## `/simulate/fail/<probability>` (simulation_routes.random_failure) -/

/-- Outcome of `random_failure`: the 500 error body or the 200 success body,
each reporting the clamped probability. -/
inductive FailResult where
  | failure (probability : ℚ)
  | success (probability : ℚ)
deriving DecidableEq

/-- HTTP status attached to each `random_failure` outcome. -/
def FailResult.status : FailResult → ℕ
  | .failure _ => 500
  | .success _ => 200

/-- Models `random_failure(probability)`: clamp the probability to [0,1] with
`max(0.0, min(1.0, probability))`, then fail iff `random.random() < probability`.
The uniform [0,1) draw of `random.random()` is the explicit argument `draw`. -/
def random_failure (probability draw : ℚ) : FailResult :=
  let p := max 0 (min 1 probability)
  if draw < p then .failure p else .success p

/-! ## `/stress/cascade/<depth>` (stress_tests.cascade_requests) -/

/-- Nested trace built by `cascade_function`: the level-0 base case or a level
together with its child trace. -/
inductive CascadeTrace where
  | base : CascadeTrace
  | node (level : ℕ) (child : CascadeTrace) : CascadeTrace
deriving DecidableEq

/-- Models `cascade_function(current_depth)`: return the base case at depth ≤ 0,
otherwise recurse on `current_depth - 1`.  The Flask `<int:depth>` converter
only admits non-negative integers, so the argument is a natural number. -/
def cascade_function : ℕ → CascadeTrace
  | 0 => .base
  | d + 1 => .node (d + 1) (cascade_function d)

/-- Models `cascade_requests(depth)`: clamp the depth with `min(depth, 10)` and run
the recursion. -/
def cascade_requests (depth : ℕ) : CascadeTrace :=
  cascade_function (min depth 10)

/-- Number of levels in a cascade trace (the base case counts as one level). -/
def CascadeTrace.levels : CascadeTrace → ℕ
  | .base => 1
  | .node _ c => 1 + c.levels

/-- The `level` fields of a cascade trace, outermost first. -/
def CascadeTrace.levelList : CascadeTrace → List ℕ
  | .base => [0]
  | .node l c => l :: c.levelList

/-- The list `[n, n-1, ..., 1, 0]`. -/
def countdown : ℕ → List ℕ
  | 0 => [0]
  | n + 1 => (n + 1) :: countdown n

/-! ## `/advanced/streaming` (advanced_routes.streaming_response) -/

/-- Models `min(int(request.args.get("chunks", 10)), 100)`: upper clamp only. -/
def clampChunks (c : ℤ) : ℤ := min c 100

/-- Models `min(float(request.args.get("delay", 0.5)), 5.0)`: upper clamp only. -/
def clampStreamDelay (d : ℚ) : ℚ := min d 5

/-- One JSON object of the newline-delimited stream body. -/
structure ChunkData where
  chunk : ℤ
  total_chunks : ℤ
  timestamp : String
  data : String
deriving DecidableEq

/-- One step of the `generate()` generator inside `streaming_response`: a
yielded newline-terminated JSON object or a `time.sleep(delay)`. -/
inductive StreamItem where
  | yieldChunk (c : ChunkData)
  | sleep (seconds : ℚ)
deriving DecidableEq

/-- The chunk object yielded at loop index `i` (0-based): 1-based index,
total, timestamp, descriptive text.  `clock i` is the
`datetime.utcnow().isoformat() + "Z"` string observed at iteration `i`. -/
def streamChunk (chunks : ℤ) (clock : ℤ → String) (i : ℤ) : ChunkData :=
  ⟨i + 1, chunks, clock i,
    "This is chunk " ++ toString (i + 1) ++ " of " ++ toString chunks⟩

/-- The emission sequence of `generate()`: for `i in range(chunks)`, yield the
chunk object, then `time.sleep(delay)` unless `i` is the last index
(`if i < chunks - 1`). -/
def streaming_generate (chunks : ℤ) (delay : ℚ) (clock : ℤ → String) :
    List StreamItem :=
  (pyRange chunks).flatMap fun i =>
    .yieldChunk (streamChunk chunks clock i) ::
      (if i < chunks - 1 then [.sleep delay] else [])

/-- Models `streaming_response`: parse `chunks` and `delay` (defaults 10 and 0.5),
clamp with `min`, and run the generator. -/
def streaming_response (chunksArg delayArg : Option String) (clock : ℤ → String) :
    Except String (List StreamItem) := do
  let chunksRaw ← intArg chunksArg 10
  let delayRaw ← floatArg delayArg (1/2)
  .ok (streaming_generate (clampChunks chunksRaw) (clampStreamDelay delayRaw) clock)

/-- Extract the chunk of a stream item, if any. -/
def chunkOf : StreamItem → Option ChunkData
  | .yieldChunk c => some c
  | .sleep _ => none

/-- Whether a stream item is a sleep. -/
def StreamItem.isSleep : StreamItem → Bool
  | .yieldChunk _ => false
  | .sleep _ => true

/-- The chunks emitted by a stream, in order. -/
def emittedChunks (l : List StreamItem) : List ChunkData :=
  l.filterMap chunkOf

/-! ## `/advanced/sse` (advanced_routes.server_sent_events) -/

/-- Models `min(int(request.args.get("events", 10)), 50)`: upper clamp only. -/
def clampSseEvents (e : ℤ) : ℤ := min e 50

/-- Models `min(float(request.args.get("interval", 1.0)), 5.0)`: upper clamp only. -/
def clampSseInterval (i : ℚ) : ℚ := min i 5

/-- The JSON payload of one SSE data frame. -/
structure SseData where
  event_id : ℤ
  timestamp : String
  data : String
  random_value : ℤ
deriving DecidableEq

/-- One step of `event_stream()`: a `data:` frame, a `time.sleep(interval)`,
or the final `event: complete` frame. -/
inductive SseItem where
  | dataFrame (d : SseData)
  | sleep (seconds : ℚ)
  | complete
deriving DecidableEq

/-- The data frame yielded at loop index `i` (0-based).  `rand i` is the
`random.randint(1, 100)` draw of iteration `i`. -/
def sseFrame (events : ℤ) (clock : ℤ → String) (rand : ℤ → ℤ) (i : ℤ) : SseData :=
  ⟨i + 1, clock i,
    "Event " ++ toString (i + 1) ++ " of " ++ toString events, rand i⟩

/-- The emission sequence of `event_stream()`: for `i in range(events)`, yield
the data frame, sleep unless last (`if i < events - 1`), then always yield the
final `event: complete` frame. -/
def sse_event_stream (events : ℤ) (interval : ℚ) (clock : ℤ → String)
    (rand : ℤ → ℤ) : List SseItem :=
  ((pyRange events).flatMap fun i =>
      .dataFrame (sseFrame events clock rand i) ::
        (if i < events - 1 then [.sleep interval] else [])) ++
    [.complete]

/-- Models `server_sent_events`: parse `events` and `interval` (defaults 10 and 1.0),
clamp with `min`, and run the generator. -/
def server_sent_events (eventsArg intervalArg : Option String)
    (clock : ℤ → String) (rand : ℤ → ℤ) : Except String (List SseItem) := do
  let eventsRaw ← intArg eventsArg 10
  let intervalRaw ← floatArg intervalArg 1
  .ok (sse_event_stream (clampSseEvents eventsRaw) (clampSseInterval intervalRaw)
        clock rand)

/-- Extract the payload of an SSE data frame, if any. -/
def sseDataOf : SseItem → Option SseData
  | .dataFrame d => some d
  | .sleep _ => none
  | .complete => none

/-- Whether an SSE item is the `event: complete` frame. -/
def SseItem.isComplete : SseItem → Bool
  | .complete => true
  | .dataFrame _ => false
  | .sleep _ => false

/-- The data frames emitted by an SSE stream, in order. -/
def sseDataFrames (l : List SseItem) : List SseData :=
  l.filterMap sseDataOf

/-! ## Remaining clamps of the streaming layer (realtime.py) -/

/-- Models `min(int(request.args.get("duration", 30)), 120)` in `live_data_feed`. -/
def clampFeedDuration (d : ℤ) : ℤ := min d 120

/-- Models `max(0.5, float(request.args.get("frequency", 2.0)))` in
`notification_stream`: lower clamp only. -/
def clampNotifFrequency (f : ℚ) : ℚ := max (1/2) f

/-- Models `min(int(request.args.get("count", 10)), 50)` in `notification_stream`. -/
def clampNotifCount (c : ℤ) : ℤ := min c 50

/-- Models `max(1.0, float(request.args.get("interval", 3.0)))` in
`system_status_stream`: lower clamp only. -/
def clampStatusInterval (i : ℚ) : ℚ := max 1 i

/-- Models `min(int(request.args.get("duration", 60)), 300)` in `system_status_stream`. -/
def clampStatusDuration (d : ℤ) : ℤ := min d 300

/-! ## `/simulate/random-status` (simulation_routes.random_status) -/

/-- Split a character list on commas, exactly as Python `str.split(",")`:
always at least one (possibly empty) field. -/
def splitComma : List Char → List (List Char)
  | [] => [[]]
  | c :: rest =>
    match splitComma rest with
    | [] => if c = ',' then [[], []] else [[c]]
    | h :: t => if c = ',' then [] :: h :: t else (c :: h) :: t

/-- Models `[int(code.strip()) for code in codes_param.split(",")]` with the
surrounding `try`: the first `ValueError` aborts the whole comprehension. -/
def parseCodesList : List (List Char) → Option (List ℤ)
  | [] => some []
  | c :: rest =>
    match pyIntCore (stripChars c), parseCodesList rest with
    | some v, some vs => some (v :: vs)
    | _, _ => none

/-- Parse the `codes` query parameter into a list of status codes. -/
def parseCodes (s : String) : Option (List ℤ) :=
  parseCodesList (splitComma s.toList)

/-- Response of `random_status`: the 400 error body, or a body whose declared
`status` is returned together with the actual HTTP status. -/
inductive RandomStatusResponse where
  | badRequest (error : String)
  | chosen (status : ℤ) (available_codes : List ℤ) (httpStatus : ℤ)
deriving DecidableEq

/-- Models `random_status`: default `codes` to `"200,404,500"`, parse the
comma-separated integers (400 on `ValueError`), pick `random.choice(codes)`
(the draw `k` selects index `k % len(codes)`), and return the body with the
chosen code as the actual HTTP status. -/
def random_status (codesParam : Option String) (k : ℕ) : RandomStatusResponse :=
  match parseCodes (codesParam.getD "200,404,500") with
  | none => .badRequest "Invalid status codes"
  | some codes =>
    let chosen_code := codes.getD (k % codes.length) 0
    .chosen chosen_code codes chosen_code

/-! ## `/simulate/rate-limit` (simulation_routes.rate_limit_test) -/

/-- Response of `rate_limit_test`: the 429 body or the 200 body. -/
inductive RateLimitResponse where
  | limited (limit retry_after current_count : ℤ)
  | allowed (rate_limit current_count remaining : ℤ)
deriving DecidableEq

/-- Models `rate_limit_test`: parse `limit` (default 10), derive
`request_count = (current_minute + random.randint(1, 15)) % limit`, and return
429 when `request_count >= limit`, else 200 with the remaining quota.
Python `%` is flooring modulo (`Int.fmod`) and raises `ZeroDivisionError`
when the divisor is 0. -/
def rate_limit_test (limitArg : Option String) (minute offset : ℤ) :
    Except String RateLimitResponse := do
  let limit ← intArg limitArg 10
  if limit = 0 then
    .error "ZeroDivisionError"
  else
    let request_count := (minute + offset).fmod limit
    if request_count ≥ limit then
      .ok (.limited limit 60 request_count)
    else
      .ok (.allowed limit request_count (limit - request_count))

/-! ## `/stress/connections/<count>` (stress_tests.connection_simulation) -/

/-- One entry of `results`: the per-thread dict with the connection id and its
measured duration. -/
structure ConnResult where
  connection_id : ℕ
  duration : ℚ
deriving DecidableEq

/-- The work fanned out by `connection_simulation`: one unit per
`i in range(min(count, 50))`, whose sleep measures `dur i`.  The Flask
`<int:count>` converter only admits non-negative integers. -/
def connWork (count : ℕ) (dur : ℕ → ℚ) : List ConnResult :=
  (List.range (min count 50)).map fun i => ⟨i, dur i⟩

/-- Ordering used by `sorted(results, key=lambda x: x["connection_id"])`. -/
def connLE (a b : ConnResult) : Prop :=
  a.connection_id ≤ b.connection_id

instance : DecidableRel connLE := fun a b =>
  inferInstanceAs (Decidable (a.connection_id ≤ b.connection_id))

instance : IsTotal ConnResult connLE :=
  ⟨fun a b => Nat.le_total a.connection_id b.connection_id⟩

instance : IsTrans ConnResult connLE :=
  ⟨fun _ _ _ h h' => Nat.le_trans h h'⟩

/-- Models `sorted(results, key=lambda x: x["connection_id"])`. -/
def sortById (l : List ConnResult) : List ConnResult :=
  l.insertionSort connLE

/-- The JSON body returned by `connection_simulation`. -/
structure ConnResponse where
  simulated_connections : ℕ
  results : List ConnResult
  average_duration : ℚ
deriving DecidableEq

/-- Models `connection_simulation(count)`: clamp with `min(count, 50)`, join the
fanned-out threads (their append order is the arbitrary `completionOrder`
list), sort the results by connection id, and compute
`sum(durations) / len(results)` — a `ZeroDivisionError` (`Except`-style
`none`) when `results` is empty. -/
def connection_simulation (count : ℕ) (completionOrder : List ConnResult) :
    Option ConnResponse :=
  if completionOrder.length = 0 then
    none
  else
    some
      ⟨min count 50, sortById completionOrder,
        (completionOrder.map ConnResult.duration).sum / completionOrder.length⟩

/-! ## Theorems -/

lemma except_error_bind {ε α β : Type} (e : ε) (f : α → Except ε β) :
    (Except.error e : Except ε α) >>= f = Except.error e := rfl

lemma except_ok_bind {ε α β : Type} (a : α) (f : α → Except ε β) :
    (Except.ok a : Except ε α) >>= f = f a := rfl

lemma cascade_function_levels (n : ℕ) : (cascade_function n).levels = n + 1 := by
  induction n with
  | zero => rfl
  | succ d ih => simp [cascade_function, CascadeTrace.levels, ih]; omega

lemma cascade_function_levelList (n : ℕ) :
    (cascade_function n).levelList = countdown n := by
  induction n with
  | zero => rfl
  | succ d ih => simp [cascade_function, CascadeTrace.levelList, countdown, ih]

/-- Claim C1: for `/simulate/fail/<probability>`, the probability is clamped to
[0,1]; for every uniform draw d in [0,1) the outcome is the 500 failure body
exactly when d < clamped probability and the 200 success body otherwise; with
probability 0 the outcome is success for every draw, and with probability 1 it
is failure for every draw. -/
theorem simulate_fail_outcome (p d : ℚ) (hd0 : 0 ≤ d) (hd1 : d < 1) :
    (0 ≤ max 0 (min 1 p) ∧ max 0 (min 1 p) ≤ 1) ∧
    (random_failure p d = .failure (max 0 (min 1 p)) ↔ d < max 0 (min 1 p)) ∧
    ((random_failure p d).status = 500 ↔ d < max 0 (min 1 p)) ∧
    ((random_failure p d).status = 200 ↔ ¬ d < max 0 (min 1 p)) ∧
    random_failure 0 d = .success 0 ∧
    random_failure 1 d = .failure 1 := by
  refine ⟨⟨le_max_left _ _, max_le (by norm_num) (min_le_left _ _)⟩, ?_, ?_, ?_, ?_, ?_⟩
  · unfold random_failure
    by_cases h : d < max 0 (min 1 p) <;> simp [h]
  · unfold random_failure
    by_cases h : d < max 0 (min 1 p) <;> simp [h, FailResult.status]
  · unfold random_failure
    by_cases h : d < max 0 (min 1 p) <;> simp [h, FailResult.status]
  · have hcl : max 0 (min 1 (0 : ℚ)) = 0 := by norm_num
    simp [random_failure, hcl, not_lt.mpr hd0]
  · have hcl : max 0 (min 1 (1 : ℚ)) = 1 := by norm_num
    simp [random_failure, hcl, hd1]

/-- Witness for C1 at probability 1/2 and draw 1/4. -/
theorem simulate_fail_outcome_witness :
    (0 ≤ (1/4 : ℚ) ∧ (1/4 : ℚ) < 1) ∧
    random_failure 0 (1/4) = .success 0 ∧
    random_failure 1 (1/4) = .failure 1 ∧
    ((random_failure (1/2) (1/4)).status = 500 ↔ (1/4 : ℚ) < max 0 (min 1 (1/2))) :=
  ⟨⟨by norm_num, by norm_num⟩,
    (simulate_fail_outcome (1/2) (1/4) (by norm_num) (by norm_num)).2.2.2.2.1,
    (simulate_fail_outcome (1/2) (1/4) (by norm_num) (by norm_num)).2.2.2.2.2,
    (simulate_fail_outcome (1/2) (1/4) (by norm_num) (by norm_num)).2.2.1⟩

/-- Claim C6: for `/stress/cascade/<depth>` the depth is clamped to at most 10,
the recursion terminates at the level-0 base case, and the nested trace has
exactly `min depth 10 + 1` levels numbered from the clamped depth down to 0;
depth 15 yields 11 levels and depth 0 yields exactly the base case. -/
theorem stress_cascade_trace (depth : ℕ) :
    (cascade_requests depth).levels = min depth 10 + 1 ∧
    (cascade_requests depth).levelList = countdown (min depth 10) ∧
    (cascade_requests 15).levels = 11 ∧
    cascade_requests 0 = .base := by
  exact ⟨cascade_function_levels _, cascade_function_levelList _, by decide, rfl⟩

/-- Claim C3 counterexample: with `chunks=abc` the `/advanced/streaming`
handler neither substitutes the documented default nor returns a structured
4xx body — the `ValueError` from `int(...)` propagates as an unhandled fault;
likewise `limit=abc` for `/simulate/rate-limit`. -/
theorem numeric_parse_fault_counterexample :
    streaming_response (some "abc") none (fun _ => "") = .error "ValueError" ∧
    rate_limit_test (some "abc") 0 1 = .error "ValueError" := by
  constructor <;> decide

/-- Claim C3 amended: the documented default is substituted only when the
numeric parameter is absent; a present value that fails to parse makes the
`ValueError` propagate out of `streaming_response` and `rate_limit_test` as an
unhandled fault; only `random_status` catches the parse failure and converts
it into a structured 400 error body. -/
theorem numeric_parse_fault_policy (s : String) (m o : ℤ) (clock : ℤ → String)
    (k : ℕ) (d : ℤ) :
    (pyInt s = none →
      streaming_response (some s) none clock = .error "ValueError" ∧
      rate_limit_test (some s) m o = .error "ValueError") ∧
    intArg none d = .ok d ∧
    (parseCodes s = none →
      random_status (some s) k = .badRequest "Invalid status codes") := by
  refine ⟨fun h => ⟨?_, ?_⟩, rfl, fun h => ?_⟩
  · simp [streaming_response, intArg, h, except_error_bind]
  · simp [rate_limit_test, intArg, h, except_error_bind]
  · simp [random_status, h]

/-- Witness for the amended C3 at `chunks=abc` / `limit=abc` / `codes=abc`. -/
theorem numeric_parse_fault_policy_witness :
    pyInt "abc" = none ∧
    streaming_response (some "abc") none (fun _ => "x") = .error "ValueError" ∧
    rate_limit_test (some "abc") 7 2 = .error "ValueError" ∧
    random_status (some "abc") 0 = .badRequest "Invalid status codes" := by
  have h := numeric_parse_fault_policy "abc" 7 2 (fun _ => "x") 0 10
  exact ⟨by decide, (h.1 (by decide)).1, (h.1 (by decide)).2, h.2.2 (by decide)⟩

/-- Claim C4 counterexample: the values actually used by `/advanced/streaming`
are clamped from above only — `chunks=0` gives a used chunk count of 0, outside
[1,100], and `delay=-1` gives a used delay of -1, outside [0,5]; the negative
(invalid) sleep length is reachable in the emitted stream. -/
theorem clamp_bounds_counterexample :
    clampChunks 0 = 0 ∧ ¬ (1 : ℤ) ≤ clampChunks 0 ∧
    clampStreamDelay (-1) = -1 ∧ ¬ (0 : ℚ) ≤ clampStreamDelay (-1) ∧
    StreamItem.sleep (-1) ∈
      streaming_generate (clampChunks 2) (clampStreamDelay (-1)) (fun _ => "") := by
  have h1 : clampStreamDelay (-1) = -1 := by
    unfold clampStreamDelay
    exact min_eq_left (by norm_num)
  refine ⟨by decide, by decide, h1, by rw [h1]; norm_num, by decide⟩

/-- Claim C4 amended: every documented upper cap holds for every client input
— streaming chunks ≤ 100 and delay ≤ 5, SSE events ≤ 50 and interval ≤ 5,
notification count ≤ 50, feed duration ≤ 120, status-stream duration ≤ 300,
and the lower clamps frequency ≥ 0.5 and status interval ≥ 1 hold — but there
is no lower clamp on the streaming chunk count or delay, so a used chunk count
below 1 and a negative sleep length are reachable from client input. -/
theorem clamp_upper_bounds (c e nc fd sd : ℤ) (d i f si : ℚ) :
    clampChunks c ≤ 100 ∧ clampStreamDelay d ≤ 5 ∧
    clampSseEvents e ≤ 50 ∧ clampSseInterval i ≤ 5 ∧
    clampNotifCount nc ≤ 50 ∧ (1/2 : ℚ) ≤ clampNotifFrequency f ∧
    (1 : ℚ) ≤ clampStatusInterval si ∧
    clampFeedDuration fd ≤ 120 ∧ clampStatusDuration sd ≤ 300 :=
  ⟨min_le_right _ _, min_le_right _ _, min_le_right _ _, min_le_right _ _,
    min_le_right _ _, le_max_left _ _, le_max_left _ _, min_le_right _ _,
    min_le_right _ _⟩

/-- Claim C9: for `/simulate/rate-limit` with limit ≥ 1 the synthetic count
`(current_minute + offset) % limit` always lies in [0, limit), so
`request_count >= limit` is unreachable and the endpoint returns the 200 body
with the remaining quota; limit = 0 makes `%` raise `ZeroDivisionError`, an
unhandled fault. -/
theorem rate_limit_unreachable_429 (limitArg : Option String)
    (minute offset limit : ℤ) (hp : intArg limitArg 10 = .ok limit) :
    (1 ≤ limit →
      rate_limit_test limitArg minute offset =
        .ok (.allowed limit ((minute + offset).fmod limit)
              (limit - (minute + offset).fmod limit)) ∧
      0 ≤ (minute + offset).fmod limit ∧
      (minute + offset).fmod limit < limit) ∧
    (limit = 0 →
      rate_limit_test limitArg minute offset = .error "ZeroDivisionError") := by
  constructor
  · intro h1
    have hpos : 0 < limit := h1
    have hlt : (minute + offset).fmod limit < limit := Int.fmod_lt_of_pos _ hpos
    have hnn : 0 ≤ (minute + offset).fmod limit := by
      rw [Int.fmod_eq_emod _ (le_of_lt hpos)]
      exact Int.emod_nonneg _ (by omega)
    have hne : ¬ limit = 0 := by omega
    exact ⟨by simp [rate_limit_test, hp, except_ok_bind, hne, not_le.mpr hlt],
      hnn, hlt⟩
  · intro h0
    subst h0
    simp [rate_limit_test, hp, except_ok_bind]

/-- Witness for C9 at `limit=5` (and the fault at `limit=0`), minute 12,
offset 3. -/
theorem rate_limit_unreachable_429_witness :
    intArg (some "5") 10 = .ok 5 ∧
    rate_limit_test (some "5") 12 3 =
      .ok (.allowed 5 ((12 + 3 : ℤ).fmod 5) (5 - (12 + 3 : ℤ).fmod 5)) ∧
    rate_limit_test (some "0") 12 3 = .error "ZeroDivisionError" := by
  have h5 := rate_limit_unreachable_429 (some "5") 12 3 5 (by decide)
  have h0 := rate_limit_unreachable_429 (some "0") 12 3 0 (by decide)
  exact ⟨by decide, (h5.1 (by decide)).1, h0.2 rfl⟩

lemma parseCodesList_none_of_mem {cs : List Char} {l : List (List Char)}
    (hmem : cs ∈ l) (hcs : pyIntCore (stripChars cs) = none) :
    parseCodesList l = none := by
  induction l with
  | nil => cases hmem
  | cons a t ih =>
    rcases List.mem_cons.mp hmem with h | h
    · subst h
      cases ht : parseCodesList t <;> simp [parseCodesList, hcs, ht]
    · cases ha : pyIntCore (stripChars a) <;>
        simp [parseCodesList, ha, ih h]

/-- Claim C8: for `/simulate/random-status`, if any comma-separated entry of
the `codes` parameter is non-numeric the response is the structured 400 error
body (never an unhandled fault); otherwise the chosen code is both the
`status` declared in the JSON body and the actual HTTP status returned. -/
theorem random_status_consistent (codesParam : Option String) (k : ℕ) :
    (parseCodes (codesParam.getD "200,404,500") = none →
      random_status codesParam k = .badRequest "Invalid status codes") ∧
    (∀ cs ∈ splitComma (codesParam.getD "200,404,500").toList,
      pyIntCore (stripChars cs) = none →
      random_status codesParam k = .badRequest "Invalid status codes") ∧
    (∀ st codes hs, random_status codesParam k = .chosen st codes hs →
      hs = st) := by
  refine ⟨fun h => by simp [random_status, h], fun cs hmem hcs => ?_,
    fun st codes hs h => ?_⟩
  · have hnone : parseCodes (codesParam.getD "200,404,500") = none :=
      parseCodesList_none_of_mem hmem hcs
    simp [random_status, hnone]
  · unfold random_status at h
    cases hp : parseCodes (codesParam.getD "200,404,500") <;> rw [hp] at h
    · cases h
    · cases h
      rfl

/-- Witness for C8: `codes=abc,200` yields the 400 body, and with the default
codes the declared and actual statuses agree at draw 1. -/
theorem random_status_consistent_witness :
    random_status (some "abc,200") 0 = .badRequest "Invalid status codes" ∧
    random_status none 1 = .chosen 404 [200, 404, 500] 404 ∧
    (404 : ℤ) = 404 := by
  refine ⟨?_, by decide, ?_⟩
  · exact (random_status_consistent (some "abc,200") 0).2.1
      ['a', 'b', 'c'] (by decide) (by decide)
  · exact (random_status_consistent none 1).2.2 404 [200, 404, 500] 404
      (by decide)

/-- Claim C10: `/stress/connections/0` produces an empty results list, and
`sum(...) / len(results)` raises `ZeroDivisionError` — the handler faults
instead of returning a response; with count ≥ 1 it is total. -/
theorem connections_zero_division (count : ℕ) (dur : ℕ → ℚ)
    (l : List ConnResult) (hperm : l.Perm (connWork count dur)) :
    (count = 0 → connection_simulation count l = none) ∧
    (1 ≤ count → ∃ r, connection_simulation count l = some r) := by
  have hlen : l.length = min count 50 := by
    rw [hperm.length_eq]
    simp [connWork]
  constructor
  · intro h0
    subst h0
    have h : l.length = 0 := by simpa using hlen
    simp [connection_simulation, h]
  · intro h1
    have h : ¬ l.length = 0 := by omega
    simp [connection_simulation, h]

/-- Witness for C10 at count 0 (fault) and count 2 (total). -/
theorem connections_zero_division_witness :
    ([] : List ConnResult).Perm (connWork 0 (fun _ => 0)) ∧
    connection_simulation 0 [] = none ∧
    ∃ r, connection_simulation 2 [⟨1, 0⟩, ⟨0, 0⟩] = some r := by
  have hperm : ([⟨1, 0⟩, ⟨0, 0⟩] : List ConnResult).Perm
      (connWork 2 (fun _ => 0)) := List.Perm.swap _ _ _
  exact ⟨List.Perm.refl _,
    (connections_zero_division 0 (fun _ => 0) [] (List.Perm.refl _)).1 rfl,
    (connections_zero_division 2 (fun _ => 0) _ hperm).2 (by omega)⟩

/-- Claim C7: for every completion order of the fanned-out work units, the
results list in the `/stress/connections/<count>` response is sorted by
strictly ascending connection id `0 .. min(count,50) - 1`, with exactly one
result per id — output order depends only on the ids. -/
theorem connections_sorted_by_id (count : ℕ) (dur : ℕ → ℚ)
    (l : List ConnResult) (hperm : l.Perm (connWork count dur))
    (h1 : 1 ≤ count) :
    ∃ r, connection_simulation count l = some r ∧
      r.results = sortById l ∧
      r.results.map ConnResult.connection_id = List.range (min count 50) := by
  have key : (sortById l).map ConnResult.connection_id =
      List.range (min count 50) := by
    have hp : (sortById l).Perm (connWork count dur) :=
      (List.perm_insertionSort connLE l).trans hperm
    have hw : (connWork count dur).map ConnResult.connection_id =
        List.range (min count 50) := by
      unfold connWork
      rw [List.map_map]
      simp [Function.comp_def]
    have hpm : ((sortById l).map ConnResult.connection_id).Perm
        (List.range (min count 50)) := by
      have hm := hp.map ConnResult.connection_id
      rwa [hw] at hm
    have hs1 : List.Sorted (· ≤ ·)
        ((sortById l).map ConnResult.connection_id) :=
      List.Pairwise.map _ (fun _ _ h => h) (List.sorted_insertionSort connLE l)
    exact List.eq_of_perm_of_sorted hpm hs1 (List.sorted_le_range _)
  have hlen : l.length = min count 50 := by
    rw [hperm.length_eq]
    simp [connWork]
  have hne : ¬ l.length = 0 := by omega
  exact ⟨⟨min count 50, sortById l, (l.map ConnResult.duration).sum / l.length⟩,
    by simp [connection_simulation, hne], rfl, key⟩

/-- Witness for C7 at count 2 with completion order id 1 before id 0. -/
theorem connections_sorted_by_id_witness :
    ([⟨1, 0⟩, ⟨0, 0⟩] : List ConnResult).Perm (connWork 2 (fun _ => 0)) ∧
    ∃ r, connection_simulation 2 [⟨1, 0⟩, ⟨0, 0⟩] = some r ∧
      r.results = sortById [⟨1, 0⟩, ⟨0, 0⟩] ∧
      r.results.map ConnResult.connection_id = List.range (min 2 50) := by
  have hperm : ([⟨1, 0⟩, ⟨0, 0⟩] : List ConnResult).Perm
      (connWork 2 (fun _ => 0)) := List.Perm.swap _ _ _
  exact ⟨hperm, connections_sorted_by_id 2 (fun _ => 0) _ hperm (by omega)⟩

lemma mem_pyRange {i M : ℤ} : i ∈ pyRange M ↔ 0 ≤ i ∧ i < M := by
  unfold pyRange
  rw [List.mem_map]
  constructor
  · rintro ⟨j, hj, rfl⟩
    rw [List.mem_range] at hj
    exact ⟨Int.natCast_nonneg j, Int.lt_toNat.mp hj⟩
  · rintro ⟨h0, hM⟩
    refine ⟨i.toNat, ?_, Int.toNat_of_nonneg h0⟩
    rw [List.mem_range]
    exact Int.lt_toNat.mpr (by rwa [Int.toNat_of_nonneg h0])

lemma length_pyRange (M : ℤ) : (pyRange M).length = M.toNat := by
  simp [pyRange]

lemma pyRange_succ {M : ℤ} (h : 1 ≤ M) :
    pyRange M = pyRange (M - 1) ++ [M - 1] := by
  have h0 : M.toNat = (M - 1).toNat + 1 := by omega
  unfold pyRange
  rw [h0, List.range_succ, List.map_append]
  simp
  omega

lemma streaming_generate_decomp (N : ℤ) (d : ℚ) (clock : ℤ → String)
    (h : 1 ≤ N) :
    streaming_generate N d clock =
      ((pyRange (N - 1)).flatMap fun i =>
        [.yieldChunk (streamChunk N clock i), .sleep d]) ++
      [.yieldChunk (streamChunk N clock (N - 1))] := by
  unfold streaming_generate
  rw [pyRange_succ h, List.flatMap_append]
  congr 1
  · refine List.flatMap_congr fun i hi => ?_
    have hlt : i < N - 1 := (mem_pyRange.mp hi).2
    simp [hlt]
  · simp

lemma pairs_filterMap_chunk (l : List ℤ) (g : ℤ → ChunkData) (d : ℚ) :
    ((l.flatMap fun i => [StreamItem.yieldChunk (g i), .sleep d]).filterMap
      chunkOf) = l.map g := by
  induction l with
  | nil => rfl
  | cons a t ih => simp [List.flatMap_cons, List.filterMap_append, chunkOf, ih]

lemma pairs_filter_sleep (l : List ℤ) (g : ℤ → ChunkData) (d : ℚ) :
    ((l.flatMap fun i => [StreamItem.yieldChunk (g i), .sleep d]).filter
      StreamItem.isSleep).length = l.length := by
  induction l with
  | nil => rfl
  | cons a t ih =>
    simp [List.flatMap_cons, List.filter_append, StreamItem.isSleep, ih]

/-- Claim C2: for `/advanced/streaming` whose clamped chunk count is N ≥ 1,
the emitted stream is exactly N newline-terminated JSON chunk objects whose
1-based indices are exactly 1..N in order (strictly increasing, contiguous),
each carrying the total N, a timestamp and descriptive text, and exactly N-1
sleeps of the clamped delay — one between each consecutive pair of chunks and
none after the last chunk. -/
theorem streaming_chunks_exact (chunksArg delayArg : Option String)
    (clock : ℤ → String) (c0 : ℤ) (d0 : ℚ)
    (hc : intArg chunksArg 10 = .ok c0)
    (hd : floatArg delayArg (1/2) = .ok d0)
    (hN : 1 ≤ clampChunks c0) :
    ∃ items, streaming_response chunksArg delayArg clock = .ok items ∧
      emittedChunks items =
        (pyRange (clampChunks c0)).map (streamChunk (clampChunks c0) clock) ∧
      (emittedChunks items).map ChunkData.chunk =
        (pyRange (clampChunks c0)).map (fun i => i + 1) ∧
      (emittedChunks items).length = (clampChunks c0).toNat ∧
      (items.filter StreamItem.isSleep).length = (clampChunks c0 - 1).toNat ∧
      items =
        ((pyRange (clampChunks c0 - 1)).flatMap fun i =>
          [.yieldChunk (streamChunk (clampChunks c0) clock i),
           .sleep (clampStreamDelay d0)]) ++
        [.yieldChunk
          (streamChunk (clampChunks c0) clock (clampChunks c0 - 1))] := by
  have hdec := streaming_generate_decomp (clampChunks c0)
    (clampStreamDelay d0) clock hN
  have hemit : emittedChunks
      (streaming_generate (clampChunks c0) (clampStreamDelay d0) clock) =
      (pyRange (clampChunks c0)).map (streamChunk (clampChunks c0) clock) := by
    rw [hdec]
    unfold emittedChunks
    rw [List.filterMap_append, pairs_filterMap_chunk, pyRange_succ hN,
      List.map_append]
    simp [chunkOf]
  refine ⟨streaming_generate (clampChunks c0) (clampStreamDelay d0) clock,
    ?_, hemit, ?_, ?_, ?_, hdec⟩
  · simp only [streaming_response, hc, hd, except_ok_bind]
  · rw [hemit, List.map_map]
    exact List.map_congr_left fun i _ => rfl
  · rw [hemit, List.length_map, length_pyRange]
  · rw [hdec, List.filter_append, List.length_append, pairs_filter_sleep,
      length_pyRange]
    simp [StreamItem.isSleep]

/-- Witness for C2 at `chunks=3`, `delay=2`. -/
theorem streaming_chunks_exact_witness :
    (intArg (some "3") 10 = .ok 3 ∧ floatArg (some "2") (1/2) = .ok 2 ∧
      (1 : ℤ) ≤ clampChunks 3) ∧
    ∃ items, streaming_response (some "3") (some "2") (fun _ => "t") =
        .ok items ∧
      (emittedChunks items).map ChunkData.chunk =
        (pyRange (clampChunks 3)).map (fun i => i + 1) ∧
      (items.filter StreamItem.isSleep).length = (clampChunks 3 - 1).toNat := by
  refine ⟨⟨by decide, by decide, by decide⟩, ?_⟩
  obtain ⟨items, h1, _, h3, _, h5, _⟩ :=
    streaming_chunks_exact (some "3") (some "2") (fun _ => "t") 3 2
      (by decide) (by decide) (by decide)
  exact ⟨items, h1, h3, h5⟩

lemma sse_body_filterMap (l : List ℤ) (g : ℤ → SseData) (M : ℤ) (d : ℚ) :
    ((l.flatMap fun i =>
        SseItem.dataFrame (g i) ::
          (if i < M then [SseItem.sleep d] else [])).filterMap sseDataOf) =
      l.map g := by
  induction l with
  | nil => rfl
  | cons a t ih =>
    by_cases hp : a < M <;>
      simp [List.flatMap_cons, List.filterMap_append, hp, sseDataOf, ih]

lemma sse_body_no_complete (l : List ℤ) (g : ℤ → SseData) (M : ℤ) (d : ℚ) :
    ((l.flatMap fun i =>
        SseItem.dataFrame (g i) ::
          (if i < M then [SseItem.sleep d] else [])).filter
      SseItem.isComplete) = [] := by
  induction l with
  | nil => rfl
  | cons a t ih =>
    by_cases hp : a < M <;>
      simp [List.flatMap_cons, List.filter_append, hp, SseItem.isComplete, ih]

/-- Claim C5: for `/advanced/sse` whose clamped event count is N (including
N = 0), the emitted stream consists of exactly N data frames, with event ids
exactly 1..N in order, followed by exactly one terminal `event: complete`
frame — always present, after the last data frame, never duplicated. -/
theorem sse_data_frames_then_complete (eventsArg intervalArg : Option String)
    (clock : ℤ → String) (rand : ℤ → ℤ) (e0 : ℤ) (i0 : ℚ)
    (he : intArg eventsArg 10 = .ok e0)
    (hi : floatArg intervalArg 1 = .ok i0)
    (hN : 0 ≤ clampSseEvents e0) :
    ∃ items, server_sent_events eventsArg intervalArg clock rand = .ok items ∧
      sseDataFrames items =
        (pyRange (clampSseEvents e0)).map
          (sseFrame (clampSseEvents e0) clock rand) ∧
      (sseDataFrames items).map SseData.event_id =
        (pyRange (clampSseEvents e0)).map (fun i => i + 1) ∧
      ((sseDataFrames items).length : ℤ) = clampSseEvents e0 ∧
      items.filter SseItem.isComplete = [.complete] ∧
      items.getLast? = some .complete := by
  have hframes : sseDataFrames
      (sse_event_stream (clampSseEvents e0) (clampSseInterval i0) clock rand) =
      (pyRange (clampSseEvents e0)).map
        (sseFrame (clampSseEvents e0) clock rand) := by
    unfold sse_event_stream sseDataFrames
    rw [List.filterMap_append,
      sse_body_filterMap (pyRange (clampSseEvents e0))
        (sseFrame (clampSseEvents e0) clock rand) (clampSseEvents e0 - 1)
        (clampSseInterval i0)]
    simp [sseDataOf]
  refine ⟨sse_event_stream (clampSseEvents e0) (clampSseInterval i0) clock rand,
    ?_, hframes, ?_, ?_, ?_, ?_⟩
  · simp only [server_sent_events, he, hi, except_ok_bind]
  · rw [hframes, List.map_map]
    exact List.map_congr_left fun i _ => rfl
  · rw [hframes, List.length_map, length_pyRange]
    exact Int.toNat_of_nonneg hN
  · unfold sse_event_stream
    rw [List.filter_append,
      sse_body_no_complete (pyRange (clampSseEvents e0))
        (sseFrame (clampSseEvents e0) clock rand) (clampSseEvents e0 - 1)
        (clampSseInterval i0)]
    simp [SseItem.isComplete]
  · unfold sse_event_stream
    exact List.getLast?_concat _

/-- Witness for C5 at `events=3` and at the boundary `events=0`. -/
theorem sse_data_frames_then_complete_witness :
    (intArg (some "3") 10 = .ok 3 ∧ floatArg none 1 = .ok 1 ∧
      (0 : ℤ) ≤ clampSseEvents 3 ∧ (0 : ℤ) ≤ clampSseEvents 0) ∧
    (∃ items, server_sent_events (some "3") none (fun _ => "t") (fun _ => 7) =
        .ok items ∧
      ((sseDataFrames items).length : ℤ) = clampSseEvents 3 ∧
      items.filter SseItem.isComplete = [.complete] ∧
      items.getLast? = some .complete) ∧
    ∃ items, server_sent_events (some "0") none (fun _ => "t") (fun _ => 7) =
        .ok items ∧
      ((sseDataFrames items).length : ℤ) = clampSseEvents 0 ∧
      items.filter SseItem.isComplete = [.complete] := by
  refine ⟨⟨by decide, rfl, by decide, by decide⟩, ?_, ?_⟩
  · obtain ⟨items, h1, _, _, h4, h5, h6⟩ :=
      sse_data_frames_then_complete (some "3") none (fun _ => "t") (fun _ => 7)
        3 1 (by decide) rfl (by decide)
    exact ⟨items, h1, h4, h5, h6⟩
  · obtain ⟨items, h1, _, _, h4, h5, _⟩ :=
      sse_data_frames_then_complete (some "0") none (fun _ => "t") (fun _ => 7)
        0 1 (by decide) rfl (by decide)
    exact ⟨items, h1, h4, h5⟩

end Httpbin

